import Mathlib

/-!
Shallow embedding of the hyperpod_k8s bootstrap scripts
(`src/lcc/configure_k8s.py` and `src/lcc/lifecycle_script.py`).

Pure data and control flow are translated directly from the Python source.
External effects — the secret store, the filesystem, subprocesses and
wall-clock time — are modelled as explicit inputs: a poll of the secret
store becomes a function from the poll index to the observed result, the
duration of an attempt becomes a function from the attempt index to
seconds, and the one unbounded loop receives a fuel argument (the other
loops of the source have a fixed iteration count).
-/

deriving instance DecidableEq for Except

/-- Error taxonomy of the bootstrap, following the design's section 7: the
AssertionError raised on a failed ARN decomposition is the ParseError, the
ValueError of `lifecycle_script.main` for a node absent from the topology
is the NotFoundError, the TimeoutError of `init_worker_node` is `timedOut`,
and a secret-store exception other than the missing-key case is `storeErr`. -/
inductive BootErr where
  | parseError
  | notFound
  | timedOut
  | storeErr (msg : String)
deriving DecidableEq

/-- Total wall-clock seconds consumed by `n` completed poll iterations
starting at attempt index `i`: each iteration takes the attempt duration
`d` plus the fixed sleep `step` of the loop. -/
def sumInterval (d : Nat → Nat) (step : Nat) : Nat → Nat → Nat
  | _, 0 => 0
  | i, Nat.succ n => d i + step + sumInterval d step (i + 1) n

namespace ConfigureK8s

/-- One entry of an `Instances` list of `resource_config.json`, with the
fields that `configure_k8s.py` reads (all mandatory accesses there). -/
structure Instance where
  agentIpAddress : String
  customerIpAddress : String
  instanceId : String
  instanceName : String
deriving DecidableEq

/-- One entry of `InstanceGroups` as read by `configure_k8s.py`. -/
structure InstanceGroup where
  instanceType : String
  instances : List Instance
  name : String
deriving DecidableEq

/-- The parsed `resource_config.json` held by `ResourceConfig` of
`configure_k8s.py`: the cluster ARN, the cluster name, and the groups. -/
structure ResourceConfig where
  clusterArn : String
  clusterName : String
  instanceGroups : List InstanceGroup
deriving DecidableEq

/-- Models `ResourceConfig.get_cluster_name`. -/
def ResourceConfig.get_cluster_name (rc : ResourceConfig) : String :=
  rc.clusterName

/-- Models `ResourceConfig.get_cluster_arn`. -/
def ResourceConfig.get_cluster_arn (rc : ResourceConfig) : String :=
  rc.clusterArn

/-- Character class `[a-z]` of the ARN regular expression. -/
def isLowerAZ (c : Char) : Bool :=
  97 ≤ c.toNat && c.toNat ≤ 122

/-- Character class `[0-9]` of the ARN regular expression. -/
def isDigitChar (c : Char) : Bool :=
  48 ≤ c.toNat && c.toNat ≤ 57

/-- Character class `[a-z0-9-]` (the region group of the ARN pattern). -/
def isRegionChar (c : Char) : Bool :=
  isLowerAZ c || isDigitChar c || c == '-'

/-- Character class `[a-z0-9]` (the cluster-id group of the ARN pattern). -/
def isIdChar (c : Char) : Bool :=
  isLowerAZ c || isDigitChar c

/-- Consumes an expected literal from the front of the input, returning the
remainder, or `none` when the input does not start with the literal. -/
def dropLiteral : List Char → List Char → Option (List Char)
  | [], cs => some cs
  | _ :: _, [] => none
  | l :: ls, c :: cs => if c = l then dropLiteral ls cs else none

/-- Captured groups of a successful match of the pattern
`arn:aws:sagemaker:([a-z0-9-]+):([0-9]+):cluster/([a-z0-9]+)` together with
the uncaptured remainder of the string (`re.match` anchors only the start,
so trailing characters are ignored by the source). -/
structure ArnParts where
  region : List Char
  account : List Char
  clusterId : List Char
  rest : List Char
deriving DecidableEq

/-- Models `re.match("arn:aws:sagemaker:([a-z0-9-]+):([0-9]+):cluster/([a-z0-9]+)", arn)`.
Each `+`-group of the pattern is a maximal nonempty run of its class: the
class excludes the character that must follow the group (a colon for the
first two), so greedy matching with backtracking picks exactly the maximal
run, and the final group is greedy with no follow-up requirement. -/
def matchArnL (cs : List Char) : Option ArnParts :=
  match dropLiteral "arn:aws:sagemaker:".data cs with
  | none => none
  | some cs1 =>
    let r := cs1.takeWhile isRegionChar
    match cs1.dropWhile isRegionChar with
    | ':' :: cs2 =>
      if r.isEmpty then none
      else
        let a := cs2.takeWhile isDigitChar
        if a.isEmpty then none
        else
          match dropLiteral ":cluster/".data (cs2.dropWhile isDigitChar) with
          | none => none
          | some cs3 =>
            let i := cs3.takeWhile isIdChar
            if i.isEmpty then none
            else some ⟨r, a, i, cs3.dropWhile isIdChar⟩
    | _ => none

/-- Models `ResourceConfig.get_region`: match the ARN pattern and return
group 1; a failed match raises (AssertionError, i.e. the ParseError of the
design's taxonomy). -/
def ResourceConfig.get_region (rc : ResourceConfig) : Except BootErr String :=
  match matchArnL rc.get_cluster_arn.data with
  | some p => Except.ok (String.mk p.region)
  | none => Except.error BootErr.parseError

/-- Models `ResourceConfig.get_cluster_id`: match the ARN pattern and
return group 3; a failed match raises. -/
def ResourceConfig.get_cluster_id (rc : ResourceConfig) : Except BootErr String :=
  match matchArnL rc.get_cluster_arn.data with
  | some p => Except.ok (String.mk p.clusterId)
  | none => Except.error BootErr.parseError

/-- Spec-side notion of a string being exactly of the shape
`arn:aws:sagemaker:REGION:ACCOUNT:cluster/ID` — the whole string, with
nothing after the cluster id. Used only to compare the source's
start-anchored matching against the shape the claim describes. -/
def specArnShape (s : String) : Bool :=
  match matchArnL s.data with
  | some p => p.rest.isEmpty
  | none => false

/-- Module-level constant `secret_name` of `configure_k8s.py`. -/
def secret_name : String := "hyperpod-k8s-"

/-- Models `get_secret_name`: the f-string joining the module-level
constant and the cluster name with a dash. -/
def get_secret_name (rc : ResourceConfig) : String :=
  secret_name ++ "-" ++ rc.get_cluster_name

/-- Per-character action of `addr.replace(".", "-")`. -/
def replaceDotChar (c : Char) : Char :=
  if c = '.' then '-' else c

/-- Models the Python expression `addr.replace(".", "-")`: a
single-character pattern, hence a per-character substitution. -/
def replaceDots (s : String) : String :=
  String.mk (s.data.map replaceDotChar)

/-- Node-name derivation of `iter_instances`:
`"ip-" + instance["CustomerIpAddress"].replace(".", "-")`. -/
def derivedName (address : String) : String :=
  "ip-" ++ replaceDots address

/-- An element yielded by `iter_instances`: the instance dict copied and
extended with the group's type and name and with the derived node name. -/
structure FullInstance where
  agentIpAddress : String
  customerIpAddress : String
  instanceId : String
  instanceName : String
  instanceType : String
  instanceGroupName : String
  name : String
deriving DecidableEq

/-- Models `ResourceConfig.iter_instances` (the yielded sequence as a
list, in iteration order). -/
def ResourceConfig.iter_instances (rc : ResourceConfig) : List FullInstance :=
  rc.instanceGroups.flatMap fun g =>
    g.instances.map fun inst =>
      { agentIpAddress := inst.agentIpAddress
        customerIpAddress := inst.customerIpAddress
        instanceId := inst.instanceId
        instanceName := inst.instanceName
        instanceType := g.instanceType
        instanceGroupName := g.name
        name := derivedName inst.customerIpAddress }

/-- Parsed secret value (`json.loads(response["SecretString"])`) with the
fields consumed by the `kubeadm join` invocation. -/
structure JoinInfo where
  master_addr_port : String
  token : String
  discovery_token_ca_cert_hash : String
deriving DecidableEq

/-- Observable result of one call of `get_join_info_from_secret`: the key
exists and parses to a credential; or the store raises
ResourceNotFoundException, which the function catches, returning `None`;
or the store raises any other error, which propagates. -/
inductive PollResult where
  | found (j : JoinInfo)
  | missing
  | storeErr (msg : String)
deriving DecidableEq

/-- Outcome of the polling loop of `init_worker_node`: the credential is
returned, or TimeoutError is raised, or an uncaught store error
propagates out of the loop. -/
inductive JoinOutcome where
  | ok (j : JoinInfo)
  | timedOut
  | storeFailed (msg : String)
deriving DecidableEq

/-- Module-level constant `join_info_timeout = 5 * 60` of the source. -/
def join_info_timeout : Nat := 5 * 60

/-- Models the `while True` loop of `init_worker_node`. Iteration `k`
polls the store; a found credential breaks out of the loop at once; a
store error propagates at once; on a missing key the loop raises
TimeoutError when the elapsed time taken at that moment has reached the
timeout, and otherwise sleeps and retries. The returned index `k` is the
iteration at which the loop ended, so exactly `k + 1` polls and `k`
sleeps were performed. `none` means the fuel ran out before the loop
ended. -/
def get_join_info_loop (polls : Nat → PollResult) (timeAt : Nat → Nat)
    (timeout : Nat) : Nat → Nat → Option (JoinOutcome × Nat)
  | 0, _ => none
  | Nat.succ fuel, k =>
    match polls k with
    | PollResult.storeErr e => some (JoinOutcome.storeFailed e, k)
    | PollResult.found j => some (JoinOutcome.ok j, k)
    | PollResult.missing =>
      if timeout ≤ timeAt k then some (JoinOutcome.timedOut, k)
      else get_join_info_loop polls timeAt timeout fuel (k + 1)

/-- Wall-clock time `time.time() - t0` observed at the timeout check of
iteration `k`, given the duration `d i` of the poll of iteration `i`: the
completed iterations `0 … k-1` each took their poll plus the 10-second
sleep, and the current iteration has taken its poll. -/
def elapsedAt (d : Nat → Nat) (k : Nat) : Nat :=
  sumInterval d 10 0 k + d k

/-- Models the polling loop of `init_worker_node` with the source's
timeout of `join_info_timeout` seconds, the store behaviour `polls`, and
per-poll durations `d`. -/
def init_worker_node (polls : Nat → PollResult) (d : Nat → Nat)
    (fuel : Nat) : Option (JoinOutcome × Nat) :=
  get_join_info_loop polls (elapsedAt d) join_info_timeout fuel 0

/-- The two sides of the join-credential rendezvous described by the
design: publishing the credential, or awaiting and consuming it. -/
inductive JoinPath where
  | publishCredential
  | awaitAndConsume
deriving DecidableEq

/-- Join path taken by `configure_k8s()`: it unconditionally calls
`init_worker_node`, the awaiting/consuming side of the rendezvous. No
publishing routine exists anywhere in the code. -/
def configure_k8s_join_path : JoinPath :=
  JoinPath.awaitAndConsume

end ConfigureK8s

namespace LifecycleScript

/-- One instance dict of `resource_config.json` as read by
`lifecycle_script.py`; the fields are fetched with `dict.get`, which
yields `None` when a key is absent, hence the `Option` types. -/
structure Instance where
  instanceName : Option String
  customerIpAddress : Option String
deriving DecidableEq

/-- One instance-group dict as read by `lifecycle_script.py`. -/
structure InstanceGroup where
  name : Option String
  instances : List Instance
deriving DecidableEq

/-- The parsed resource-config JSON held by `ResourceConfig` of
`lifecycle_script.py`. -/
structure ResourceConfig where
  instanceGroups : List InstanceGroup
deriving DecidableEq

/-- Scan of the inner `for instance in group["Instances"]` loop of
`find_instance_by_address`: the first instance of the group whose
`CustomerIpAddress` equals the queried address. -/
def findInGroup (g : InstanceGroup) (address : String) : Option Instance :=
  g.instances.find? fun inst => decide (inst.customerIpAddress = some address)

/-- Scan of the outer `for group in ...` loop of
`find_instance_by_address`. -/
def findOverGroups (groups : List InstanceGroup) (address : String) :
    Option (InstanceGroup × Instance) :=
  match groups with
  | [] => none
  | g :: gs =>
    match findInGroup g address with
    | some inst => some (g, inst)
    | none => findOverGroups gs address

/-- Models `ResourceConfig.find_instance_by_address`: the first
(group, instance) pair whose instance has the queried `CustomerIpAddress`,
and `(None, None)` — here `none` — when no instance matches. -/
def ResourceConfig.find_instance_by_address (rc : ResourceConfig)
    (address : String) : Option (InstanceGroup × Instance) :=
  findOverGroups rc.instanceGroups address

/-- Value `SlurmNodeType.HEAD_NODE`. -/
def HEAD_NODE : String := "controller"

/-- Value `SlurmNodeType.LOGIN_NODE`. -/
def LOGIN_NODE : String := "login"

/-- Value `SlurmNodeType.COMPUTE_NODE`. -/
def COMPUTE_NODE : String := "compute"

/-- What `main` decides for the local node once it is found in the
resource config: the resolved group and instance, the node type `main`
assigns, and the side of the join-credential rendezvous that the
subsequently launched `configure_k8s.py` takes. -/
structure MainOutcome where
  group : InstanceGroup
  inst : Instance
  node_type : String
  path : ConfigureK8s.JoinPath
deriving DecidableEq

/-- Models the resolution and routing part of `lifecycle_script.main`: it
locates the local node with `find_instance_by_address` and raises
ValueError (the design's NotFoundError) when the node is absent;
otherwise it sets `node_type = SlurmNodeType.COMPUTE_NODE` — there is no
branch on the resolved group — and runs `configure_k8s.py`, whose join
path is `configure_k8s_join_path`. -/
def main (rc : ResourceConfig) (self_ip : String) :
    Except BootErr MainOutcome :=
  match rc.find_instance_by_address self_ip with
  | none => Except.error BootErr.notFound
  | some (g, inst) =>
    Except.ok ⟨g, inst, COMPUTE_NODE, ConfigureK8s.configure_k8s_join_path⟩

/-- Boolean test of whether `pat` occurs as a contiguous prefix of the
list. -/
def isPrefixL : List Char → List Char → Bool
  | [], _ => true
  | _ :: _, [] => false
  | a :: as2, b :: bs => a == b && isPrefixL as2 bs

/-- Boolean test of whether `pat` occurs contiguously anywhere in the
list (at the end it occurs only when empty). -/
def occursIn (pat : List Char) : List Char → Bool
  | [] => pat.isEmpty
  | c :: t => isPrefixL pat (c :: t) || occursIn pat t

/-- Models the Python substring test `pat in data`. -/
def strContains (data pat : String) : Bool :=
  occursIn pat.data data.data

/-- State of the `SLURM_CONF` file as observed by one iteration of
`wait_for_slurm_conf`: absent, or present with the given content. -/
inductive FileState where
  | absent
  | present (data : String)
deriving DecidableEq

/-- Success condition of one iteration of `wait_for_slurm_conf`: the file
is absent (fine for login/compute nodes, returns True), or its content
mentions at least one controller address. -/
def slurmReadyNow (controllers : List String) : FileState → Bool
  | FileState.absent => true
  | FileState.present data => controllers.any fun ip => strContains data ip

/-- Shared shape of the two readiness loops of `lifecycle_script.py`,
which are both `for i in range(timeout // sleep): if COND: return True
... time.sleep(5)` followed by `return False`: `okAt i` is the success
condition of attempt `i`, `d i` its duration, the fuel is the remaining
iteration count of the `range`, and `slept` and `t` accumulate the sleeps
performed and the elapsed wall-clock time. Returns the boolean result of
the source function together with the final sleep count and elapsed
time. -/
def fixed_retry_go (okAt : Nat → Bool) (d : Nat → Nat) :
    Nat → Nat → Nat → Nat → Bool × Nat × Nat
  | 0, _, slept, t => (false, slept, t)
  | Nat.succ fuel, i, slept, t =>
    if okAt i then (true, slept, t + d i)
    else fixed_retry_go okAt d fuel (i + 1) (slept + 1) (t + d i + 5)

/-- Models `wait_for_slurm_conf` (timeout 60, sleep 5, hence
`range(60 // 5)` iterations), instrumented with the sleep count and the
elapsed time at return. -/
def wait_for_slurm_conf_run (fileAt : Nat → FileState)
    (controllers : List String) (d : Nat → Nat) : Bool × Nat × Nat :=
  fixed_retry_go (fun i => slurmReadyNow controllers (fileAt i)) d
    (60 / 5) 0 0 0

/-- The boolean returned by `wait_for_slurm_conf`. -/
def wait_for_slurm_conf (fileAt : Nat → FileState)
    (controllers : List String) (d : Nat → Nat) : Bool :=
  (wait_for_slurm_conf_run fileAt controllers d).1

/-- Characters stripped by Python's `bytes.strip()` (ASCII whitespace). -/
def isAsciiSpace (c : Char) : Bool :=
  c == ' ' || c == '\t' || c == '\n' || c == '\r' || c == '\x0b' || c == '\x0c'

/-- Models `output.strip()` of the source (`subprocess.check_output`
returns bytes; `bytes.strip()` removes ASCII whitespace at both ends). -/
def pyStrip (s : String) : String :=
  String.mk (((s.data.dropWhile isAsciiSpace).reverse.dropWhile
    isAsciiSpace).reverse)

/-- Success condition of one iteration of `wait_for_scontrol` for an
invocation of `scontrol show nodes` that exits with `r.1` and prints
`r.2`: a non-zero exit raises CalledProcessError, which the iteration
catches and turns into a retry, and a zero exit succeeds only when the
stripped output is non-empty. -/
def scSuccess (r : Nat × String) : Bool :=
  r.1 == 0 && !(pyStrip r.2).data.isEmpty

/-- Models `wait_for_scontrol` (timeout 120, sleep 5, hence
`range(120 // 5)` iterations) over command behaviours `cmdAt i` (exit
code and stdout of attempt `i`), instrumented with the sleep count and
the elapsed time at return. -/
def wait_for_scontrol_run (cmdAt : Nat → Nat × String) (d : Nat → Nat) :
    Bool × Nat × Nat :=
  fixed_retry_go (fun i => scSuccess (cmdAt i)) d (120 / 5) 0 0 0

/-- The boolean returned by `wait_for_scontrol`. -/
def wait_for_scontrol (cmdAt : Nat → Nat × String) (d : Nat → Nat) : Bool :=
  (wait_for_scontrol_run cmdAt d).1

end LifecycleScript

/-- The sample cluster ARN from the comment in `configure_k8s.py`. -/
def sampleArn : String :=
  "arn:aws:sagemaker:us-west-2:842413447717:cluster/kb8v11zrrpvr"

/-- The sample `resource_config.json` from the comment in
`configure_k8s.py`, as the `ResourceConfig` of that script. -/
def sampleK8sConfig : ConfigureK8s.ResourceConfig :=
  { clusterArn := sampleArn
    clusterName := "K8-1"
    instanceGroups :=
      [ { instanceType := "ml.t3.xlarge"
          instances :=
            [ { agentIpAddress := "172.16.102.203"
                customerIpAddress := "10.1.113.28"
                instanceId := "i-07259dd159a1c7130"
                instanceName := "ControllerGroup-1" } ]
          name := "ControllerGroup" }
      , { instanceType := "ml.t3.xlarge"
          instances :=
            [ { agentIpAddress := "172.16.100.157"
                customerIpAddress := "10.1.38.128"
                instanceId := "i-0cbbe3075137ffa1d"
                instanceName := "WorkerGroup-1" }
            , { agentIpAddress := "172.16.98.182"
                customerIpAddress := "10.1.29.16"
                instanceId := "i-0cc2532921ec06344"
                instanceName := "WorkerGroup-2" } ]
          name := "WorkerGroup" } ] }

/-- The control group of the sample topology, as `lifecycle_script.py`
reads it. -/
def sampleLcControllerGroup : LifecycleScript.InstanceGroup :=
  { name := some "ControllerGroup"
    instances := [⟨some "ControllerGroup-1", some "10.1.113.28"⟩] }

/-- The worker group of the sample topology, as `lifecycle_script.py`
reads it. -/
def sampleLcWorkerGroup : LifecycleScript.InstanceGroup :=
  { name := some "WorkerGroup"
    instances :=
      [ ⟨some "WorkerGroup-1", some "10.1.38.128"⟩
      , ⟨some "WorkerGroup-2", some "10.1.29.16"⟩ ] }

/-- The sample topology as the `ResourceConfig` of
`lifecycle_script.py`. -/
def sampleLcConfig : LifecycleScript.ResourceConfig :=
  ⟨[sampleLcControllerGroup, sampleLcWorkerGroup]⟩

/-- A concrete join credential used to exercise the rendezvous loop. -/
def sampleJoinInfo : ConfigureK8s.JoinInfo :=
  ⟨"10.1.113.28:6443", "abcdef.0123456789abcdef", "00cafe"⟩

/-- A cluster whose ARN has region `us-west-2`, paired below with
`c4ClusterB`: a different cluster identity but the same cluster name. -/
def c4ClusterA : ConfigureK8s.ResourceConfig :=
  ⟨"arn:aws:sagemaker:us-west-2:842413447717:cluster/kb8v11zrrpvr", "K8-1", []⟩

/-- A cluster in another region and account with another cluster id, yet
with the same cluster name as `c4ClusterA`. -/
def c4ClusterB : ConfigureK8s.ResourceConfig :=
  ⟨"arn:aws:sagemaker:eu-west-1:111122223333:cluster/abcd1234wxyz", "K8-1", []⟩

/-- A topology with two members whose distinct data addresses differ only
in a dot versus a dash, used against the derived-name uniqueness claim. -/
def c6Config : ConfigureK8s.ResourceConfig :=
  { clusterArn := sampleArn
    clusterName := "K8-1"
    instanceGroups :=
      [ { instanceType := "ml.t3.xlarge"
          instances :=
            [ ⟨"172.16.0.1", "10.1-1.1", "i-0000000000000001", "G-1"⟩
            , ⟨"172.16.0.2", "10.1.1.1", "i-0000000000000002", "G-2"⟩ ]
          name := "G" } ] }

/-- The element that `iter_instances` yields for the first member of
`c6Config`. -/
def c6Full1 : ConfigureK8s.FullInstance :=
  ⟨"172.16.0.1", "10.1-1.1", "i-0000000000000001", "G-1", "ml.t3.xlarge",
    "G", "ip-10-1-1-1"⟩

/-- The element that `iter_instances` yields for the second member of
`c6Config`. -/
def c6Full2 : ConfigureK8s.FullInstance :=
  ⟨"172.16.0.2", "10.1.1.1", "i-0000000000000002", "G-2", "ml.t3.xlarge",
    "G", "ip-10-1-1-1"⟩

/-- An ARN-shaped string followed by trailing junk that no component of
the shape could contain (a space and an exclamation mark). -/
def c7JunkArn : String :=
  "arn:aws:sagemaker:us-west-2:842413447717:cluster/kb8v11zrrpvr JUNK!"

/-- A resource config whose cluster ARN is `c7JunkArn`. -/
def c7JunkConfig : ConfigureK8s.ResourceConfig :=
  ⟨c7JunkArn, "K8-1", []⟩

/-- The element that `iter_instances` yields for the controller member of
the sample topology. -/
def sampleFullController : ConfigureK8s.FullInstance :=
  ⟨"172.16.102.203", "10.1.113.28", "i-07259dd159a1c7130",
    "ControllerGroup-1", "ml.t3.xlarge", "ControllerGroup", "ip-10-1-113-28"⟩

/-- The element that `iter_instances` yields for the first worker member
of the sample topology. -/
def sampleFullWorker1 : ConfigureK8s.FullInstance :=
  ⟨"172.16.100.157", "10.1.38.128", "i-0cbbe3075137ffa1d",
    "WorkerGroup-1", "ml.t3.xlarge", "WorkerGroup", "ip-10-1-38-128"⟩

/-! Helper lemmas, shared between the claim theorems. -/

theorem string_eq_of_data_eq {s t : String} (h : s.data = t.data) : s = t := by
  cases s
  cases t
  exact congrArg String.mk h

theorem takeWhile_append_all {α} (p : α → Bool) (l1 l2 : List α)
    (h1 : ∀ c ∈ l1, p c = true)
    (h2 : ∀ c, l2.head? = some c → p c = false) :
    (l1 ++ l2).takeWhile p = l1 := by
  induction l1 with
  | nil =>
    cases l2 with
    | nil => rfl
    | cons c t => simp [List.takeWhile_cons, h2 c rfl]
  | cons a as ih =>
    have ha : p a = true := h1 a (by simp)
    simp [List.takeWhile_cons, ha]
    exact ih (fun c hc => h1 c (by simp [hc]))

theorem dropWhile_append_all {α} (p : α → Bool) (l1 l2 : List α)
    (h1 : ∀ c ∈ l1, p c = true)
    (h2 : ∀ c, l2.head? = some c → p c = false) :
    (l1 ++ l2).dropWhile p = l2 := by
  induction l1 with
  | nil =>
    cases l2 with
    | nil => rfl
    | cons c t => simp [List.dropWhile_cons, h2 c rfl]
  | cons a as ih =>
    have ha : p a = true := h1 a (by simp)
    simp [List.dropWhile_cons, ha]
    exact ih (fun c hc => h1 c (by simp [hc]))

theorem dropLiteral_self (lit cs : List Char) :
    ConfigureK8s.dropLiteral lit (lit ++ cs) = some cs := by
  induction lit with
  | nil => rfl
  | cons l ls ih => simp [ConfigureK8s.dropLiteral, ih]

theorem find?_unique {α} (p : α → Bool) (l : List α) (a : α)
    (ha : a ∈ l) (hpa : p a = true)
    (huniq : ∀ b ∈ l, p b = true → b = a) :
    l.find? p = some a := by
  induction l with
  | nil => cases ha
  | cons b t ih =>
    by_cases hpb : p b = true
    · have : b = a := huniq b (by simp) hpb
      subst this
      simp [List.find?_cons, hpb]
    · have hb : p b = false := by simpa using hpb
      simp only [List.find?_cons, hb]
      rcases List.mem_cons.mp ha with rfl | hat
      · exact absurd hpa hpb
      · exact ih hat (fun c hc hpc => huniq c (by simp [hc]) hpc)

theorem get_join_info_loop_succ (polls : Nat → ConfigureK8s.PollResult)
    (timeAt : Nat → Nat) (timeout fuel k : Nat) :
    ConfigureK8s.get_join_info_loop polls timeAt timeout (fuel + 1) k =
      match polls k with
      | ConfigureK8s.PollResult.storeErr e =>
        some (ConfigureK8s.JoinOutcome.storeFailed e, k)
      | ConfigureK8s.PollResult.found j =>
        some (ConfigureK8s.JoinOutcome.ok j, k)
      | ConfigureK8s.PollResult.missing =>
        if timeout ≤ timeAt k then some (ConfigureK8s.JoinOutcome.timedOut, k)
        else ConfigureK8s.get_join_info_loop polls timeAt timeout fuel (k + 1) :=
  rfl

theorem get_join_info_loop_skip (polls : Nat → ConfigureK8s.PollResult)
    (timeAt : Nat → Nat) (timeout : Nat) :
    ∀ (n fuel i : Nat),
      (∀ j < n, polls (i + j) = ConfigureK8s.PollResult.missing ∧
        timeAt (i + j) < timeout) →
      ConfigureK8s.get_join_info_loop polls timeAt timeout (n + fuel) i =
        ConfigureK8s.get_join_info_loop polls timeAt timeout fuel (i + n) := by
  intro n
  induction n with
  | zero => intro fuel i _; rw [Nat.zero_add, Nat.add_zero]
  | succ n ih =>
    intro fuel i h
    have h0 := h 0 (Nat.succ_pos n)
    rw [Nat.add_zero] at h0
    have hstep : n + 1 + fuel = (n + fuel) + 1 := by omega
    rw [hstep, get_join_info_loop_succ, h0.1]
    rw [if_neg (Nat.not_le.mpr h0.2)]
    have h' : ∀ j < n, polls (i + 1 + j) = ConfigureK8s.PollResult.missing ∧
        timeAt (i + 1 + j) < timeout := by
      intro j hj
      have := h (j + 1) (by omega)
      have harith : i + (j + 1) = i + 1 + j := by omega
      rwa [harith] at this
    rw [ih fuel (i + 1) h']
    have harith2 : i + 1 + n = i + (n + 1) := by omega
    rw [harith2]

theorem get_join_info_loop_timedOut_inv (polls : Nat → ConfigureK8s.PollResult)
    (timeAt : Nat → Nat) (timeout : Nat) :
    ∀ (fuel i k : Nat),
      ConfigureK8s.get_join_info_loop polls timeAt timeout fuel i =
        some (ConfigureK8s.JoinOutcome.timedOut, k) →
      polls k = ConfigureK8s.PollResult.missing ∧ timeout ≤ timeAt k := by
  intro fuel
  induction fuel with
  | zero => intro i k h; exact absurd h (by simp [ConfigureK8s.get_join_info_loop])
  | succ fuel ih =>
    intro i k h
    rw [get_join_info_loop_succ] at h
    cases hp : polls i with
    | storeErr e => rw [hp] at h; simp at h
    | found j => rw [hp] at h; simp at h
    | missing =>
      rw [hp] at h
      by_cases ht : timeout ≤ timeAt i
      · rw [if_pos ht] at h
        have hk : i = k := by simpa using h
        subst hk
        exact ⟨hp, ht⟩
      · rw [if_neg ht] at h
        exact ih (i + 1) k h

theorem fixed_retry_go_succ (okAt : Nat → Bool) (d : Nat → Nat)
    (fuel i slept t : Nat) :
    LifecycleScript.fixed_retry_go okAt d (fuel + 1) i slept t =
      if okAt i then (true, slept, t + d i)
      else LifecycleScript.fixed_retry_go okAt d fuel (i + 1) (slept + 1)
        (t + d i + 5) :=
  rfl

theorem fixed_retry_go_skip (okAt : Nat → Bool) (d : Nat → Nat) :
    ∀ (n fuel i slept t : Nat), (∀ j < n, okAt (i + j) = false) →
      LifecycleScript.fixed_retry_go okAt d (n + fuel) i slept t =
        LifecycleScript.fixed_retry_go okAt d fuel (i + n) (slept + n)
          (t + sumInterval d 5 i n) := by
  intro n
  induction n with
  | zero => intro fuel i slept t _; simp [sumInterval]
  | succ n ih =>
    intro fuel i slept t h
    have h0 := h 0 (Nat.succ_pos n)
    rw [Nat.add_zero] at h0
    have hstep : n + 1 + fuel = (n + fuel) + 1 := by omega
    rw [hstep, fixed_retry_go_succ, h0]
    simp only [Bool.false_eq_true, if_false]
    have h' : ∀ j < n, okAt (i + 1 + j) = false := by
      intro j hj
      have := h (j + 1) (by omega)
      have harith : i + (j + 1) = i + 1 + j := by omega
      rwa [harith] at this
    rw [ih fuel (i + 1) (slept + 1) (t + d i + 5) h']
    have e1 : i + 1 + n = i + (n + 1) := by omega
    have e2 : slept + 1 + n = slept + (n + 1) := by omega
    have e3 : t + d i + 5 + sumInterval d 5 (i + 1) n =
        t + sumInterval d 5 i (n + 1) := by
      show _ = t + (d i + 5 + sumInterval d 5 (i + 1) n)
      omega
    rw [e1, e2, e3]

theorem fixed_retry_go_stuck (okAt : Nat → Bool) (d : Nat → Nat)
    (n i slept t : Nat) (h : ∀ j < n, okAt (i + j) = false) :
    LifecycleScript.fixed_retry_go okAt d n i slept t =
      (false, slept + n, t + sumInterval d 5 i n) := by
  have := fixed_retry_go_skip okAt d n 0 i slept t h
  rw [Nat.add_zero] at this
  rw [this]
  rfl

theorem findInGroup_some (g : LifecycleScript.InstanceGroup) (a : String)
    (inst : LifecycleScript.Instance)
    (h : LifecycleScript.findInGroup g a = some inst) :
    inst ∈ g.instances ∧ inst.customerIpAddress = some a := by
  refine ⟨List.mem_of_find?_eq_some h, ?_⟩
  have := List.find?_some h
  simpa using this

theorem findInGroup_none (g : LifecycleScript.InstanceGroup) (a : String) :
    LifecycleScript.findInGroup g a = none ↔
      ∀ inst ∈ g.instances, inst.customerIpAddress ≠ some a := by
  simp [LifecycleScript.findInGroup, List.find?_eq_none]

theorem findInGroup_unique (g : LifecycleScript.InstanceGroup) (a : String)
    (inst : LifecycleScript.Instance) (hmem : inst ∈ g.instances)
    (haddr : inst.customerIpAddress = some a)
    (huniq : ∀ i' ∈ g.instances, i'.customerIpAddress = some a → i' = inst) :
    LifecycleScript.findInGroup g a = some inst :=
  find?_unique _ _ inst hmem (by simpa using haddr)
    (fun b hb hpb => huniq b hb (by simpa using hpb))

theorem findOverGroups_cons (g : LifecycleScript.InstanceGroup)
    (gs : List LifecycleScript.InstanceGroup) (a : String) :
    LifecycleScript.findOverGroups (g :: gs) a =
      match LifecycleScript.findInGroup g a with
      | some inst => some (g, inst)
      | none => LifecycleScript.findOverGroups gs a :=
  rfl

theorem findOverGroups_some (a : String) :
    ∀ (groups : List LifecycleScript.InstanceGroup)
      (g : LifecycleScript.InstanceGroup) (inst : LifecycleScript.Instance),
      LifecycleScript.findOverGroups groups a = some (g, inst) →
      g ∈ groups ∧ inst ∈ g.instances ∧ inst.customerIpAddress = some a := by
  intro groups
  induction groups with
  | nil => intro g inst h; exact absurd h (by simp [LifecycleScript.findOverGroups])
  | cons g0 gs ih =>
    intro g inst h
    rw [findOverGroups_cons] at h
    cases hf : LifecycleScript.findInGroup g0 a with
    | some inst0 =>
      rw [hf] at h
      have hg : g0 = g ∧ inst0 = inst := by
        injection h with h1
        exact ⟨congrArg Prod.fst h1, congrArg Prod.snd h1⟩
      obtain ⟨rfl, rfl⟩ := hg
      have := findInGroup_some g0 a inst0 hf
      exact ⟨by simp, this.1, this.2⟩
    | none =>
      rw [hf] at h
      have := ih g inst h
      exact ⟨by simp [this.1], this.2.1, this.2.2⟩

theorem findOverGroups_none (a : String) :
    ∀ (groups : List LifecycleScript.InstanceGroup),
      LifecycleScript.findOverGroups groups a = none ↔
        ∀ g ∈ groups, ∀ inst ∈ g.instances,
          inst.customerIpAddress ≠ some a := by
  intro groups
  induction groups with
  | nil => simp [LifecycleScript.findOverGroups]
  | cons g0 gs ih =>
    rw [findOverGroups_cons]
    cases hf : LifecycleScript.findInGroup g0 a with
    | some inst0 =>
      simp only []
      constructor
      · intro h; cases h
      · intro h
        have h0 := findInGroup_some g0 a inst0 hf
        exact absurd h0.2 (h g0 (by simp) inst0 h0.1)
    | none =>
      simp only []
      rw [ih]
      constructor
      · intro h g hg inst hi
        rcases List.mem_cons.mp hg with rfl | hgs
        · exact (findInGroup_none g a).mp hf inst hi
        · exact h g hgs inst hi
      · intro h g hg inst hi
        exact h g (by simp [hg]) inst hi

theorem findOverGroups_unique (a : String) :
    ∀ (groups : List LifecycleScript.InstanceGroup)
      (g : LifecycleScript.InstanceGroup) (inst : LifecycleScript.Instance),
      g ∈ groups → inst ∈ g.instances → inst.customerIpAddress = some a →
      (∀ g' ∈ groups, ∀ inst' ∈ g'.instances,
        inst'.customerIpAddress = some a → g' = g ∧ inst' = inst) →
      LifecycleScript.findOverGroups groups a = some (g, inst) := by
  intro groups
  induction groups with
  | nil => intro g inst hg; cases hg
  | cons g0 gs ih =>
    intro g inst hg hi haddr huniq
    rw [findOverGroups_cons]
    cases hf : LifecycleScript.findInGroup g0 a with
    | some inst0 =>
      have h0 := findInGroup_some g0 a inst0 hf
      have := huniq g0 (by simp) inst0 h0.1 h0.2
      rw [this.1, this.2]
    | none =>
      rcases List.mem_cons.mp hg with rfl | hgs
      · exact absurd haddr ((findInGroup_none g a).mp hf inst hi)
      · exact ih g inst hgs hi haddr
          (fun g' hg' inst' hi' ha' => huniq g' (by simp [hg']) inst' hi' ha')

theorem mem_iter_instances_name (rc : ConfigureK8s.ResourceConfig)
    (x : ConfigureK8s.FullInstance) (hx : x ∈ rc.iter_instances) :
    x.name = ConfigureK8s.derivedName x.customerIpAddress := by
  simp only [ConfigureK8s.ResourceConfig.iter_instances, List.mem_flatMap,
    List.mem_map] at hx
  obtain ⟨g, _, inst, _, rfl⟩ := hx
  rfl

theorem replaceDotChar_inj (a b : Char) (ha : a ≠ '-') (hb : b ≠ '-')
    (h : ConfigureK8s.replaceDotChar a = ConfigureK8s.replaceDotChar b) :
    a = b := by
  unfold ConfigureK8s.replaceDotChar at h
  by_cases h1 : a = '.' <;> by_cases h2 : b = '.'
  · rw [h1, h2]
  · rw [if_pos h1, if_neg h2] at h
    exact absurd h.symm hb
  · rw [if_neg h1, if_pos h2] at h
    exact absurd h ha
  · rwa [if_neg h1, if_neg h2] at h

theorem map_replaceDotChar_inj :
    ∀ (l1 l2 : List Char), '-' ∉ l1 → '-' ∉ l2 →
      l1.map ConfigureK8s.replaceDotChar =
        l2.map ConfigureK8s.replaceDotChar → l1 = l2 := by
  intro l1
  induction l1 with
  | nil => intro l2 _ _ h; cases l2 with
    | nil => rfl
    | cons b bs => simp at h
  | cons a as ih =>
    intro l2 h1 h2 h
    cases l2 with
    | nil => simp at h
    | cons b bs =>
      simp only [List.map_cons, List.cons.injEq] at h
      have hae : a = b := replaceDotChar_inj a b
        (fun hc => h1 (by simp [hc])) (fun hc => h2 (by simp [hc])) h.1
      rw [hae, ih bs (fun hc => h1 (by simp [hc])) (fun hc => h2 (by simp [hc])) h.2]

theorem derivedName_inj (a b : String) (ha : '-' ∉ a.data) (hb : '-' ∉ b.data)
    (h : ConfigureK8s.derivedName a = ConfigureK8s.derivedName b) : a = b := by
  have hdata : "ip-".data ++ a.data.map ConfigureK8s.replaceDotChar =
      "ip-".data ++ b.data.map ConfigureK8s.replaceDotChar :=
    congrArg String.data h
  exact string_eq_of_data_eq
    (map_replaceDotChar_inj a.data b.data ha hb (List.append_cancel_left hdata))

theorem get_secret_name_data (rc : ConfigureK8s.ResourceConfig) :
    (ConfigureK8s.get_secret_name rc).data =
      "hyperpod-k8s--".data ++ rc.get_cluster_name.data := by
  show "hyperpod-k8s-".data ++ ("-".data ++ rc.clusterName.data) = _
  rw [← List.append_assoc]
  congr 1

theorem isEmpty_false_of_ne_nil {α} {l : List α} (h : l ≠ []) :
    l.isEmpty = false := by
  cases l with
  | nil => exact absurd rfl h
  | cons a t => rfl

theorem matchArnL_shape (r a i rest : List Char)
    (hr : r ≠ []) (ha : a ≠ []) (hi : i ≠ [])
    (hrc : ∀ c ∈ r, ConfigureK8s.isRegionChar c = true)
    (hac : ∀ c ∈ a, ConfigureK8s.isDigitChar c = true)
    (hic : ∀ c ∈ i, ConfigureK8s.isIdChar c = true)
    (hrest : ∀ c, rest.head? = some c → ConfigureK8s.isIdChar c = false) :
    ConfigureK8s.matchArnL
      ("arn:aws:sagemaker:".data ++ (r ++ ':' ::
        (a ++ (":cluster/".data ++ (i ++ rest))))) =
      some ⟨r, a, i, rest⟩ := by
  unfold ConfigureK8s.matchArnL
  rw [dropLiteral_self]
  dsimp only
  have htr : (r ++ ':' :: (a ++ (":cluster/".data ++ (i ++ rest)))).takeWhile
      ConfigureK8s.isRegionChar = r :=
    takeWhile_append_all _ r _ hrc (by intro c hc; injection hc with hc; subst hc; rfl)
  have hdr : (r ++ ':' :: (a ++ (":cluster/".data ++ (i ++ rest)))).dropWhile
      ConfigureK8s.isRegionChar = ':' :: (a ++ (":cluster/".data ++ (i ++ rest))) :=
    dropWhile_append_all _ r _ hrc (by intro c hc; injection hc with hc; subst hc; rfl)
  rw [htr, hdr]
  simp only [isEmpty_false_of_ne_nil hr, Bool.false_eq_true, if_false]
  have hta : (a ++ (":cluster/".data ++ (i ++ rest))).takeWhile
      ConfigureK8s.isDigitChar = a :=
    takeWhile_append_all _ a _ hac (by intro c hc; injection hc with hc; subst hc; rfl)
  have hda : (a ++ (":cluster/".data ++ (i ++ rest))).dropWhile
      ConfigureK8s.isDigitChar = ":cluster/".data ++ (i ++ rest) :=
    dropWhile_append_all _ a _ hac (by intro c hc; injection hc with hc; subst hc; rfl)
  rw [hta, hda]
  simp only [isEmpty_false_of_ne_nil ha, Bool.false_eq_true, if_false]
  rw [dropLiteral_self]
  dsimp only
  have hti : (i ++ rest).takeWhile ConfigureK8s.isIdChar = i :=
    takeWhile_append_all _ i _ hic hrest
  have hdi : (i ++ rest).dropWhile ConfigureK8s.isIdChar = rest :=
    dropWhile_append_all _ i _ hic hrest
  rw [hti, hdi]
  simp only [isEmpty_false_of_ne_nil hi, Bool.false_eq_true, if_false]

/-! Claim theorems. -/

/-- C1: for every secret-store behaviour (`polls`) and poll timing (`d`),
the polling loop of `init_worker_node` returns the parsed credential at
the first poll that finds the key; while polls report the key missing and
the elapsed wall-clock time stays below the 300-second
`join_info_timeout` the loop sleeps 10 seconds (built into `elapsedAt`)
and retries, and a poll that still reports the key missing once the
elapsed time has reached the timeout makes it raise TimeoutError; a store
error other than the missing-key case propagates at the very poll that
raised it — the loop ends at the same iteration index `k`, so exactly
`k + 1` polls and `k` sleeps happened, with no further poll or sleep. -/
theorem c1_join_rendezvous (polls : Nat → ConfigureK8s.PollResult)
    (d : Nat → Nat) (fuel k : Nat)
    (hpre : ∀ i < k, polls i = ConfigureK8s.PollResult.missing ∧
      ConfigureK8s.elapsedAt d i < ConfigureK8s.join_info_timeout)
    (hfuel : k < fuel) :
    (∀ j, polls k = ConfigureK8s.PollResult.found j →
      ConfigureK8s.init_worker_node polls d fuel =
        some (ConfigureK8s.JoinOutcome.ok j, k))
    ∧ (polls k = ConfigureK8s.PollResult.missing →
      ConfigureK8s.join_info_timeout ≤ ConfigureK8s.elapsedAt d k →
      ConfigureK8s.init_worker_node polls d fuel =
        some (ConfigureK8s.JoinOutcome.timedOut, k))
    ∧ (∀ e, polls k = ConfigureK8s.PollResult.storeErr e →
      ConfigureK8s.init_worker_node polls d fuel =
        some (ConfigureK8s.JoinOutcome.storeFailed e, k)) := by
  obtain ⟨m, rfl⟩ : ∃ m, fuel = k + (m + 1) := ⟨fuel - k - 1, by omega⟩
  unfold ConfigureK8s.init_worker_node
  rw [get_join_info_loop_skip _ _ _ k (m + 1) 0
    (by intro j hj; simpa using hpre j hj), Nat.zero_add,
    get_join_info_loop_succ]
  refine ⟨?_, ?_, ?_⟩
  · intro j hj
    rw [hj]
  · intro hm ht
    rw [hm, if_pos ht]
  · intro e he
    rw [he]

/-- Witness for `c1_join_rendezvous`: a store that reports the key
missing twice and then publishes it, with one-second polls, makes
`init_worker_node` return the credential at iteration 2. -/
theorem c1_join_rendezvous_witness :
    ConfigureK8s.init_worker_node
      (fun n => if n < 2 then ConfigureK8s.PollResult.missing
        else ConfigureK8s.PollResult.found sampleJoinInfo)
      (fun _ => 1) 5 = some (ConfigureK8s.JoinOutcome.ok sampleJoinInfo, 2) :=
  (c1_join_rendezvous _ _ 5 2 (by decide) (by decide)).1 sampleJoinInfo
    (by decide)

/-- C10: in the rendezvous loop of `init_worker_node` the success check
precedes the timeout check — for every timeout value a credential found
by poll `k` is returned even when the elapsed time observed at `k`
already exceeds the timeout (the prefix hypothesis constrains only the
polls before `k`), and the loop can report TimeoutError only immediately
after a poll that reported the key missing, so at least one store read is
performed before TimeoutError even with a zero or already-exhausted
budget. -/
theorem c10_success_check_first (polls : Nat → ConfigureK8s.PollResult)
    (timeAt : Nat → Nat) (timeout fuel : Nat) :
    (∀ k j, (∀ i < k, polls i = ConfigureK8s.PollResult.missing ∧
        timeAt i < timeout) →
      polls k = ConfigureK8s.PollResult.found j → k < fuel →
      ConfigureK8s.get_join_info_loop polls timeAt timeout fuel 0 =
        some (ConfigureK8s.JoinOutcome.ok j, k))
    ∧ (∀ k, ConfigureK8s.get_join_info_loop polls timeAt timeout fuel 0 =
        some (ConfigureK8s.JoinOutcome.timedOut, k) →
      polls k = ConfigureK8s.PollResult.missing ∧ timeout ≤ timeAt k) := by
  constructor
  · intro k j hpre hk hfuel
    obtain ⟨m, rfl⟩ : ∃ m, fuel = k + (m + 1) := ⟨fuel - k - 1, by omega⟩
    rw [get_join_info_loop_skip _ _ _ k (m + 1) 0
      (by intro q hq; simpa using hpre q hq), Nat.zero_add,
      get_join_info_loop_succ, hk]
  · intro k h
    exact get_join_info_loop_timedOut_inv polls timeAt timeout fuel 0 k h

/-- Witness for `c10_success_check_first`: with a zero observed time at
poll 0 and an observed time of 1000 seconds (far past the 300-second
timeout) at poll 1, a credential found by poll 1 is still returned. -/
theorem c10_success_check_first_witness :
    ConfigureK8s.get_join_info_loop
      (fun n => if n = 0 then ConfigureK8s.PollResult.missing
        else ConfigureK8s.PollResult.found sampleJoinInfo)
      (fun n => if n = 0 then 0 else 1000) 300 5 0 =
      some (ConfigureK8s.JoinOutcome.ok sampleJoinInfo, 1)
    ∧ (300 : Nat) < 1000 :=
  ⟨(c10_success_check_first _ _ 300 5).1 1 sampleJoinInfo (by decide)
    (by decide) (by decide), by decide⟩

/-- C5 (amended): only the secret-store poll of `init_worker_node` is
bounded by a wall-clock timeout measured from a single start timestamp —
it reports TimeoutError only when the elapsed time at the failing check
has reached `join_info_timeout`. The slurm.conf and scontrol polls are
instead bounded by a fixed retry count (`timeout // sleep`, i.e. 12 and
24 attempts): when no attempt succeeds they always perform exactly that
many sleeps, whatever the attempt durations, so a slow attempt does not
reduce the retries and can push total elapsed time past the nominal
budget. -/
theorem c5_timeout_accounting :
    (∀ (polls : Nat → ConfigureK8s.PollResult) (d : Nat → Nat) (fuel k : Nat),
      ConfigureK8s.init_worker_node polls d fuel =
        some (ConfigureK8s.JoinOutcome.timedOut, k) →
      ConfigureK8s.join_info_timeout ≤ ConfigureK8s.elapsedAt d k)
    ∧ (∀ (fileAt : Nat → LifecycleScript.FileState) (controllers : List String)
        (d : Nat → Nat),
      (∀ i < 60 / 5, LifecycleScript.slurmReadyNow controllers (fileAt i) = false) →
      (LifecycleScript.wait_for_slurm_conf_run fileAt controllers d).2.1 = 60 / 5)
    ∧ (∀ (cmdAt : Nat → Nat × String) (d : Nat → Nat),
      (∀ i < 120 / 5, LifecycleScript.scSuccess (cmdAt i) = false) →
      (LifecycleScript.wait_for_scontrol_run cmdAt d).2.1 = 120 / 5) := by
  refine ⟨?_, ?_, ?_⟩
  · intro polls d fuel k h
    exact (get_join_info_loop_timedOut_inv polls (ConfigureK8s.elapsedAt d)
      ConfigureK8s.join_info_timeout fuel 0 k h).2
  · intro fileAt controllers d h
    unfold LifecycleScript.wait_for_slurm_conf_run
    rw [fixed_retry_go_stuck _ d (60 / 5) 0 0 0
      (by intro j hj; simpa using h j hj)]
  · intro cmdAt d h
    unfold LifecycleScript.wait_for_scontrol_run
    rw [fixed_retry_go_stuck _ d (120 / 5) 0 0 0
      (by intro j hj; simpa using h j hj)]

/-- Witness for `c5_timeout_accounting`: a first poll that alone takes
400 seconds makes the rendezvous loop time out at iteration 0 with 400
elapsed seconds, and a never-ready slurm.conf poll performs exactly 12
sleeps. -/
theorem c5_timeout_accounting_witness :
    (300 : Nat) ≤ ConfigureK8s.elapsedAt (fun _ => 400) 0
    ∧ (LifecycleScript.wait_for_slurm_conf_run
        (fun _ => LifecycleScript.FileState.present "x") ["10.1.113.28"]
        (fun _ => 10)).2.1 = 60 / 5 :=
  ⟨c5_timeout_accounting.1 (fun _ => ConfigureK8s.PollResult.missing)
      (fun _ => 400) 1 0 (by decide),
    c5_timeout_accounting.2.1 (fun _ => LifecycleScript.FileState.present "x")
      ["10.1.113.28"] (fun _ => 10) (by decide)⟩

/-- Counterexample to C5 as stated: the slurm.conf poll is bounded by an
iteration count, not by elapsed wall-clock time. With a never-ready file
and 10-second attempts it still runs all 12 retries and returns after 180
elapsed seconds, three times the 60-second budget, while with instant
attempts the same 12 retries take 60 seconds — a slow attempt neither
reduces the retries nor keeps the total inside the budget. -/
theorem c5_counterexample :
    LifecycleScript.wait_for_slurm_conf_run
      (fun _ => LifecycleScript.FileState.present "x") ["10.1.113.28"]
      (fun _ => 10) = (false, 12, 180)
    ∧ LifecycleScript.wait_for_slurm_conf_run
      (fun _ => LifecycleScript.FileState.present "x") ["10.1.113.28"]
      (fun _ => 0) = (false, 12, 60)
    ∧ (60 : Nat) < 180 := by
  decide

/-- C8: polled with a constant file state, `wait_for_slurm_conf` returns
ready immediately after zero sleeps when the artifact is absent, and
likewise when its content mentions at least one known controller address;
otherwise it runs its full `60 // 5` iterations of 5-second sleeps and
returns False (not-ready) without raising. -/
theorem c8_wait_for_slurm_conf (st : LifecycleScript.FileState)
    (controllers : List String) (d : Nat → Nat) :
    LifecycleScript.wait_for_slurm_conf_run (fun _ => st) controllers d =
      if LifecycleScript.slurmReadyNow controllers st then (true, 0, d 0)
      else (false, 60 / 5, sumInterval d 5 0 (60 / 5)) := by
  unfold LifecycleScript.wait_for_slurm_conf_run
  by_cases h : LifecycleScript.slurmReadyNow controllers st = true
  · rw [if_pos h, show (60 : Nat) / 5 = 11 + 1 from rfl, fixed_retry_go_succ]
    simp [h]
  · have hf : LifecycleScript.slurmReadyNow controllers st = false := by
      simpa using h
    rw [if_neg h, fixed_retry_go_stuck _ d (60 / 5) 0 0 0
      (by intro j hj; simpa using hf)]
    simp

/-- C9: for every behaviour of the scontrol command (exit code and
stdout of each attempt) `wait_for_scontrol` returns a boolean and never
throws — a non-zero exit is caught and absorbed into a retry — polling
at 5-second intervals: it returns True at the first attempt whose
command exits 0 with non-whitespace output, and returns False after its
full `120 // 5` iterations when no attempt ever does. -/
theorem c9_wait_for_scontrol (cmdAt : Nat → Nat × String) (d : Nat → Nat) :
    (∀ k, k < 120 / 5 →
      (∀ i < k, LifecycleScript.scSuccess (cmdAt i) = false) →
      LifecycleScript.scSuccess (cmdAt k) = true →
      LifecycleScript.wait_for_scontrol_run cmdAt d =
        (true, k, sumInterval d 5 0 k + d k))
    ∧ ((∀ i < 120 / 5, LifecycleScript.scSuccess (cmdAt i) = false) →
      LifecycleScript.wait_for_scontrol_run cmdAt d =
        (false, 120 / 5, sumInterval d 5 0 (120 / 5))) := by
  constructor
  · intro k hk hpre hsucc
    unfold LifecycleScript.wait_for_scontrol_run
    obtain ⟨m, hm⟩ : ∃ m, 120 / 5 = k + (m + 1) := ⟨120 / 5 - k - 1, by omega⟩
    rw [hm, fixed_retry_go_skip _ d k (m + 1) 0 0 0
      (by intro j hj; simpa using hpre j hj), Nat.zero_add, Nat.zero_add,
      fixed_retry_go_succ]
    simp [hsucc]
  · intro h
    unfold LifecycleScript.wait_for_scontrol_run
    rw [fixed_retry_go_stuck _ d (120 / 5) 0 0 0
      (by intro j hj; simpa using h j hj)]
    simp

/-- Witness for `c9_wait_for_scontrol`: two failing attempts (a non-zero
exit and a zero exit with whitespace-only output would both retry; here a
non-zero exit) followed by a listing at attempt 2 return True at index 2,
and a command that always exits 0 printing only a space — whose stripped
output is empty — ends with False after 24 sleeps. -/
theorem c9_wait_for_scontrol_witness :
    LifecycleScript.wait_for_scontrol_run
      (fun i => if i = 2 then (0, " ip-10-1-38-128 ") else (1, "nodes"))
      (fun _ => 1) = (true, 2, 13)
    ∧ LifecycleScript.wait_for_scontrol_run (fun _ => (0, " "))
      (fun _ => 0) = (false, 24, 120) :=
  ⟨(c9_wait_for_scontrol _ _).1 2 (by decide) (by decide) (by decide),
    (c9_wait_for_scontrol _ _).2 (by decide)⟩

/-- Counterexample to C2: on the sample topology the local node belonging
to the control group (`ControllerGroup`, address 10.1.113.28) is resolved
by `main` with node type compute — the assignment is unconditional — and
the pipeline takes the awaiting/consuming side of the rendezvous
(`configure_k8s` calls `init_worker_node`), not the publishing side the
claim requires of a control node. -/
theorem c2_counterexample :
    LifecycleScript.main sampleLcConfig "10.1.113.28" =
      Except.ok ⟨sampleLcControllerGroup,
        ⟨some "ControllerGroup-1", some "10.1.113.28"⟩,
        LifecycleScript.COMPUTE_NODE, ConfigureK8s.JoinPath.awaitAndConsume⟩
    ∧ sampleLcControllerGroup.name = some "ControllerGroup"
    ∧ ConfigureK8s.JoinPath.awaitAndConsume ≠
        ConfigureK8s.JoinPath.publishCredential := by
  decide

/-- C2 (amended): for every topology and local address that resolves, the
pipeline ignores the resolved role for routing — `main` hardcodes the
node type to compute and always launches `configure_k8s.py`, which
unconditionally calls `init_worker_node`, so every node takes the
awaiting/consuming path and no node publishes the join credential. -/
theorem c2_no_role_routing (rc : LifecycleScript.ResourceConfig)
    (ip : String) (o : LifecycleScript.MainOutcome)
    (h : LifecycleScript.main rc ip = Except.ok o) :
    o.node_type = LifecycleScript.COMPUTE_NODE ∧
    o.path = ConfigureK8s.JoinPath.awaitAndConsume ∧
    o.path ≠ ConfigureK8s.JoinPath.publishCredential := by
  unfold LifecycleScript.main at h
  cases hf : rc.find_instance_by_address ip with
  | none => rw [hf] at h; cases h
  | some gi =>
    obtain ⟨g, inst⟩ := gi
    rw [hf] at h
    injection h with h1
    rw [← h1]
    exact ⟨rfl, rfl, fun hc => ConfigureK8s.JoinPath.noConfusion hc⟩

/-- Witness for `c2_no_role_routing` at a worker member of the sample
topology. -/
theorem c2_no_role_routing_witness :
    (LifecycleScript.MainOutcome.mk sampleLcWorkerGroup
      ⟨some "WorkerGroup-1", some "10.1.38.128"⟩
      LifecycleScript.COMPUTE_NODE
      ConfigureK8s.JoinPath.awaitAndConsume).node_type =
        LifecycleScript.COMPUTE_NODE ∧
    (LifecycleScript.MainOutcome.mk sampleLcWorkerGroup
      ⟨some "WorkerGroup-1", some "10.1.38.128"⟩
      LifecycleScript.COMPUTE_NODE
      ConfigureK8s.JoinPath.awaitAndConsume).path =
        ConfigureK8s.JoinPath.awaitAndConsume ∧
    (LifecycleScript.MainOutcome.mk sampleLcWorkerGroup
      ⟨some "WorkerGroup-1", some "10.1.38.128"⟩
      LifecycleScript.COMPUTE_NODE
      ConfigureK8s.JoinPath.awaitAndConsume).path ≠
        ConfigureK8s.JoinPath.publishCredential :=
  c2_no_role_routing sampleLcConfig "10.1.38.128" _ (by decide)

/-- C3: `find_instance_by_address` returns only pairs of a group of the
topology and a member of that group whose `CustomerIpAddress` equals the
queried address; it returns none exactly when no member matches; when the
matching member is unique it is the one returned; and `main` raises the
NotFoundError (ValueError) exactly when no member matches, so the
bootstrap does not proceed. -/
theorem c3_resolve_self (rc : LifecycleScript.ResourceConfig) (a : String) :
    (∀ g inst, rc.find_instance_by_address a = some (g, inst) →
      g ∈ rc.instanceGroups ∧ inst ∈ g.instances ∧
        inst.customerIpAddress = some a)
    ∧ (rc.find_instance_by_address a = none ↔
      ∀ g ∈ rc.instanceGroups, ∀ inst ∈ g.instances,
        inst.customerIpAddress ≠ some a)
    ∧ (∀ g inst, g ∈ rc.instanceGroups → inst ∈ g.instances →
      inst.customerIpAddress = some a →
      (∀ g' ∈ rc.instanceGroups, ∀ inst' ∈ g'.instances,
        inst'.customerIpAddress = some a → g' = g ∧ inst' = inst) →
      rc.find_instance_by_address a = some (g, inst))
    ∧ (LifecycleScript.main rc a = Except.error BootErr.notFound ↔
      rc.find_instance_by_address a = none) := by
  refine ⟨?_, ?_, ?_, ?_⟩
  · intro g inst h
    exact findOverGroups_some a rc.instanceGroups g inst h
  · exact findOverGroups_none a rc.instanceGroups
  · intro g inst hg hi haddr huniq
    exact findOverGroups_unique a rc.instanceGroups g inst hg hi haddr huniq
  · unfold LifecycleScript.main
    cases hf : rc.find_instance_by_address a with
    | none => simp
    | some gi => obtain ⟨g, inst⟩ := gi; simp

/-- Witness for `c3_resolve_self`: on the sample topology, the address of
the second worker resolves to exactly that worker and its group. -/
theorem c3_resolve_self_witness :
    sampleLcConfig.find_instance_by_address "10.1.29.16" =
      some (sampleLcWorkerGroup, ⟨some "WorkerGroup-2", some "10.1.29.16"⟩) :=
  (c3_resolve_self sampleLcConfig "10.1.29.16").2.2.1 sampleLcWorkerGroup
    ⟨some "WorkerGroup-2", some "10.1.29.16"⟩ (by decide) (by decide)
    (by decide) (by decide)

/-- Counterexample to C4: two clusters with distinct structured
identities — different region, account and cluster id in their ARNs —
but the same cluster name receive the same secret name, because
`get_secret_name` is derived from the cluster name alone. -/
theorem c4_counterexample :
    c4ClusterA.get_region = Except.ok "us-west-2"
    ∧ c4ClusterB.get_region = Except.ok "eu-west-1"
    ∧ c4ClusterA.get_cluster_id = Except.ok "kb8v11zrrpvr"
    ∧ c4ClusterB.get_cluster_id = Except.ok "abcd1234wxyz"
    ∧ ConfigureK8s.get_secret_name c4ClusterA =
        ConfigureK8s.get_secret_name c4ClusterB := by
  decide

/-- C4 (amended): `get_secret_name` derives the key deterministically
from the cluster name with the fixed prefix — the result is the constant
prefix `hyperpod-k8s--` followed by the cluster name — and two resource
configs receive the same secret name exactly when their cluster names
are equal; distinct region/account/cluster-id identities alone do not
prevent a collision. -/
theorem c4_secret_name_by_cluster_name
    (rc1 rc2 : ConfigureK8s.ResourceConfig) :
    (ConfigureK8s.get_secret_name rc1).data =
      "hyperpod-k8s--".data ++ rc1.get_cluster_name.data
    ∧ (ConfigureK8s.get_secret_name rc1 = ConfigureK8s.get_secret_name rc2 ↔
      rc1.get_cluster_name = rc2.get_cluster_name) := by
  refine ⟨get_secret_name_data rc1, ?_, ?_⟩
  · intro h
    have hd := congrArg String.data h
    rw [get_secret_name_data rc1, get_secret_name_data rc2] at hd
    exact string_eq_of_data_eq (List.append_cancel_left hd)
  · intro h
    unfold ConfigureK8s.get_secret_name
    rw [h]

/-- Counterexample to C6: a topology whose two members have the distinct
data addresses `10.1-1.1` and `10.1.1.1` — unique across members, as the
claim's validity condition requires — receives the same derived name
`ip-10-1-1-1` for both, because replacing dots by dashes conflates a dash
already present in an address with a replaced dot. -/
theorem c6_counterexample :
    c6Config.iter_instances = [c6Full1, c6Full2]
    ∧ c6Full1.customerIpAddress ≠ c6Full2.customerIpAddress
    ∧ c6Full1.name = c6Full2.name := by
  decide

/-- C6 (amended): the name computed by `iter_instances` is a pure
function of the member's data address alone — any two yielded members
with the same address receive the same name, whatever their groups or
other fields — and on every topology whose data addresses contain no
dash character (as dotted-decimal IPv4 addresses do not), members with
distinct addresses receive distinct names; without that restriction
addresses differing only in a dot versus a dash collide. -/
theorem c6_derived_name (rc : ConfigureK8s.ResourceConfig) :
    (∀ x ∈ rc.iter_instances,
      x.name = ConfigureK8s.derivedName x.customerIpAddress)
    ∧ (∀ x ∈ rc.iter_instances, ∀ y ∈ rc.iter_instances,
      x.customerIpAddress = y.customerIpAddress → x.name = y.name)
    ∧ (∀ x ∈ rc.iter_instances, ∀ y ∈ rc.iter_instances,
      '-' ∉ x.customerIpAddress.data → '-' ∉ y.customerIpAddress.data →
      x.customerIpAddress ≠ y.customerIpAddress → x.name ≠ y.name) := by
  refine ⟨?_, ?_, ?_⟩
  · intro x hx
    exact mem_iter_instances_name rc x hx
  · intro x hx y hy h
    rw [mem_iter_instances_name rc x hx, mem_iter_instances_name rc y hy, h]
  · intro x hx y hy hdx hdy hne hname
    rw [mem_iter_instances_name rc x hx, mem_iter_instances_name rc y hy]
      at hname
    exact hne (derivedName_inj _ _ hdx hdy hname)

/-- Witness for `c6_derived_name`: on the sample topology the controller
and the first worker have distinct dash-free addresses and get distinct
derived names. -/
theorem c6_derived_name_witness :
    sampleFullController.name ≠ sampleFullWorker1.name :=
  (c6_derived_name sampleK8sConfig).2.2 sampleFullController (by decide)
    sampleFullWorker1 (by decide) (by decide) (by decide) (by decide)

/-- Counterexample to C7: a string that is not of the claimed shape — it
carries trailing junk after the cluster id that no component of the
shape could contain — still decomposes successfully, because `re.match`
anchors the pattern only at the start of the string; no ParseError is
raised. -/
theorem c7_counterexample :
    ConfigureK8s.specArnShape c7JunkArn = false
    ∧ c7JunkConfig.get_region = Except.ok "us-west-2"
    ∧ c7JunkConfig.get_cluster_id = Except.ok "kb8v11zrrpvr" := by
  decide

/-- C7 (amended): decomposition succeeds on every string that starts
with `arn:aws:sagemaker:REGION:ACCOUNT:cluster/ID` — returning that
region and cluster id — whatever follows the id (trailing content is
ignored, since the pattern is anchored only at the start), and fails
with ParseError exactly on the strings the start-anchored pattern does
not match; for the sample ARN this yields region `us-west-2` and cluster
id `kb8v11zrrpvr`. -/
theorem c7_arn_decomposition :
    (∀ (rc : ConfigureK8s.ResourceConfig) (r a i rest : List Char),
      rc.clusterArn = String.mk ("arn:aws:sagemaker:".data ++ (r ++ ':' ::
        (a ++ (":cluster/".data ++ (i ++ rest))))) →
      r ≠ [] → a ≠ [] → i ≠ [] →
      (∀ c ∈ r, ConfigureK8s.isRegionChar c = true) →
      (∀ c ∈ a, ConfigureK8s.isDigitChar c = true) →
      (∀ c ∈ i, ConfigureK8s.isIdChar c = true) →
      (∀ c, rest.head? = some c → ConfigureK8s.isIdChar c = false) →
      rc.get_region = Except.ok (String.mk r) ∧
        rc.get_cluster_id = Except.ok (String.mk i))
    ∧ (∀ rc : ConfigureK8s.ResourceConfig,
      ConfigureK8s.matchArnL rc.clusterArn.data = none →
      rc.get_region = Except.error BootErr.parseError ∧
        rc.get_cluster_id = Except.error BootErr.parseError) := by
  constructor
  · intro rc r a i rest harn hr ha hi hrc hac hic hrest
    have hm := matchArnL_shape r a i rest hr ha hi hrc hac hic hrest
    constructor
    · unfold ConfigureK8s.ResourceConfig.get_region
      rw [show rc.get_cluster_arn = rc.clusterArn from rfl, harn]
      rw [show (String.mk ("arn:aws:sagemaker:".data ++ (r ++ ':' ::
        (a ++ (":cluster/".data ++ (i ++ rest)))))).data =
        "arn:aws:sagemaker:".data ++ (r ++ ':' ::
          (a ++ (":cluster/".data ++ (i ++ rest)))) from rfl, hm]
    · unfold ConfigureK8s.ResourceConfig.get_cluster_id
      rw [show rc.get_cluster_arn = rc.clusterArn from rfl, harn]
      rw [show (String.mk ("arn:aws:sagemaker:".data ++ (r ++ ':' ::
        (a ++ (":cluster/".data ++ (i ++ rest)))))).data =
        "arn:aws:sagemaker:".data ++ (r ++ ':' ::
          (a ++ (":cluster/".data ++ (i ++ rest)))) from rfl, hm]
  · intro rc h
    constructor
    · unfold ConfigureK8s.ResourceConfig.get_region
      rw [show rc.get_cluster_arn = rc.clusterArn from rfl, h]
    · unfold ConfigureK8s.ResourceConfig.get_cluster_id
      rw [show rc.get_cluster_arn = rc.clusterArn from rfl, h]

/-- Witness for `c7_arn_decomposition`: the sample ARN with trailing
junk decomposes to region `us-west-2` and cluster id `kb8v11zrrpvr`. -/
theorem c7_arn_decomposition_witness :
    c7JunkConfig.get_region = Except.ok (String.mk "us-west-2".data) ∧
    c7JunkConfig.get_cluster_id = Except.ok (String.mk "kb8v11zrrpvr".data) :=
  c7_arn_decomposition.1 c7JunkConfig "us-west-2".data "842413447717".data
    "kb8v11zrrpvr".data " JUNK!".data (by decide) (by decide) (by decide)
    (by decide) (by decide) (by decide) (by decide) (by decide)
